import Mathlib

/- Verification of the opencode-notifier event-arbitration core.

   Shallow embedding of:
   - the event arbiter closed over by createNotifierPlugin (src/plugin.ts),
     cut at its suspension points into pure state-transition segments;
   - the per-decision dispatch joiner handleEvent (src/plugin.ts, lines 42-84);
   - the SessionCache class (session-cache.ts);
   - the Session Title Resolver of spec section 4.2 (its cache-consulting
     resolve function is not present under src/, only the cache and a test
     exercising it are, so it is modelled from the spec).

   Timestamps are Int (JavaScript numbers holding Date.now() readings; the
   sentinel initial value is -1).  Each clock read of timeProvider.now() in
   the source becomes an explicit Int parameter of the segment that performs
   it.  TypeScript exceptions are modelled with Except; a try/catch in the
   source becomes a match absorbing the error constructor at the same place. -/

namespace OpencodeNotifier

/-- config.ts: `export const RACE_CONDITION_DEBOUNCE_MS = 150`.  The debounce
window W of the spec. -/
def RACE_CONDITION_DEBOUNCE_MS : Int := 150

/-- plugin.ts line 195: `await new Promise((resolve) => setTimeout(resolve, 150))`.
The idle grace delay G of the spec. -/
def IDLE_GRACE_DELAY_MS : Int := 150

/-- config.ts: `export type EventType = "permission" | "complete" | "error" | "subagent"`.
The spec classifications map as: permission = Permission, complete = Completion,
subagent = DelegatedCompletion, error = Error. -/
inductive EventType
  | permission
  | complete
  | error
  | subagent
deriving Repr, DecidableEq

/-- JavaScript truthiness of a `string | undefined` value: `undefined` and the
empty string are falsy (used for `if (sessionID)` and `if (parentID)`). -/
def truthyStr : Option String → Bool
  | none => false
  | some s => if s = "" then false else true

/-- The mutable state closed over by createNotifierPlugin (plugin.ts lines
89-92), plus the `cancelled` flag local to the in-flight idle invocation
(line 190).  The closure stored in `pendingIdleNotification` does nothing but
set that flag, and the spec's invariant (section 3) keeps at most one idle
pending, so the handle is modelled as the Bool `pendingIdleNotification`
together with the single flag `idleCancelled`. -/
structure ArbiterState where
  lastErrorTime : Int
  lastIdleTime : Int
  lastIdleNotificationTime : Int
  pendingIdleNotification : Bool
  idleCancelled : Bool
deriving Repr, DecidableEq

/-- plugin.ts lines 89-92: all three timestamps start at -1 and no
cancellation handle is stored. -/
def initialState : ArbiterState :=
  { lastErrorTime := -1
    lastIdleTime := -1
    lastIdleNotificationTime := -1
    pendingIdleNotification := false
    idleCancelled := false }

/-- Outcome of the synchronous prefix of the idle branch (up to the grace
delay). -/
inductive IdleStart
  | suppressed
  | armed (eventType : EventType)
deriving Repr, DecidableEq

/-- plugin.ts lines 159-195: the idle branch up to the `await` of the grace
delay.  `now` is the reading of timeProvider.now() at line 160, `parentID`
the value resolved from the session lookup.  If the error debounce fires the
handler returns with the state untouched; otherwise it classifies (subagent
when the session has a truthy parentID, else complete), records
lastIdleTime, arms a fresh cancellation handle and suspends. -/
def idleStart (s : ArbiterState) (now : Int) (parentID : Option String) :
    ArbiterState × IdleStart :=
  if s.lastErrorTime ≥ 0 ∧ now - s.lastErrorTime < RACE_CONDITION_DEBOUNCE_MS then
    (s, IdleStart.suppressed)
  else
    let eventType := if truthyStr parentID then EventType.subagent else EventType.complete
    ({ s with
        lastIdleTime := now
        pendingIdleNotification := true
        idleCancelled := false },
     IdleStart.armed eventType)

/-- Outcome of the idle branch after the grace delay resumes. -/
inductive IdleResume
  | cancelled
  | suppressed
  | emit (eventType : EventType)
deriving Repr, DecidableEq

/-- plugin.ts lines 197-216: the idle branch from the resume of the grace
delay up to (and including) the start of dispatch.  `afterDelay` is the
reading of timeProvider.now() at line 204.  The cancelled flag is consulted
first; then the error debounce is re-checked; otherwise the handle is
cleared and the decision emitted (dispatch begins).  Note that
lastIdleNotificationTime is NOT written here: the source assigns it only
after `await handleEvent(...)` settles (line 219), see idleDispatchSettled. -/
def idleResume (s : ArbiterState) (afterDelay : Int) (eventType : EventType) :
    ArbiterState × IdleResume :=
  if s.idleCancelled then
    ({ s with pendingIdleNotification := false }, IdleResume.cancelled)
  else if s.lastErrorTime ≥ 0 ∧ afterDelay - s.lastErrorTime < RACE_CONDITION_DEBOUNCE_MS then
    ({ s with pendingIdleNotification := false }, IdleResume.suppressed)
  else
    ({ s with pendingIdleNotification := false }, IdleResume.emit eventType)

/-- plugin.ts line 219: after the emitted decision's dispatch has settled,
`lastIdleNotificationTime = timeProvider.now()`.  `now` is that fresh clock
reading, taken after the `await`. -/
def idleDispatchSettled (s : ArbiterState) (now : Int) : ArbiterState :=
  { s with lastIdleNotificationTime := now }

/-- plugin.ts lines 224-250: the session.error branch (it contains no await
before its terminal dispatch, so it is one segment).  `now` is the reading
of timeProvider.now() at line 225.  Returns the new state and the
classification dispatched, if any:
1. a stored cancellation handle is invoked (setting the in-flight idle's
   cancelled flag) and cleared, and the error is suppressed too;
2. else an error within W of an already-sent idle notification is suppressed;
3. else lastErrorTime is recorded and an error decision dispatched. -/
def errorStep (s : ArbiterState) (now : Int) : ArbiterState × Option EventType :=
  if s.pendingIdleNotification then
    ({ s with idleCancelled := true, pendingIdleNotification := false }, none)
  else if s.lastIdleNotificationTime ≥ 0 ∧
      now - s.lastIdleNotificationTime < RACE_CONDITION_DEBOUNCE_MS then
    (s, none)
  else
    ({ s with lastErrorTime := now }, some EventType.error)

/-- The shape of `sessionResponse.data` (plugin.ts line 125): a session
object whose title may be absent or empty and whose parentID may be absent. -/
structure SessionData where
  title : Option String
  parentID : Option String
deriving Repr, DecidableEq

/-- plugin.ts line 127: `sessionTitle = session.title || "OpenCode"` — a
missing or empty title falls back to the default. -/
def titleOrDefault : Option String → String
  | none => "OpenCode"
  | some t => if t = "" then "OpenCode" else t

/-- plugin.ts lines 117-148: resolve the session title and parentID for an
event.  `lookup` models `pluginInput.client.session.get`; Except.error is a
thrown rejection, Except.ok none is a response with undefined data.  The
whole lookup sits in a try/catch whose catch block only logs and fires a
best-effort toast (itself `.catch(() => {})`-protected), so a throwing
lookup leaves the defaults in place rather than propagating. -/
def resolveSessionInfo (hasPluginInput : Bool)
    (lookup : String → Except String (Option SessionData))
    (sessionID : Option String) : String × Option String :=
  match sessionID with
  | none => ("OpenCode", none)
  | some sid =>
    if sid = "" then ("OpenCode", none)
    else if hasPluginInput then
      match lookup sid with
      | Except.ok (some session) => (titleOrDefault session.title, session.parentID)
      | Except.ok none => ("OpenCode", none)
      | Except.error _ => ("OpenCode", none)
    else ("OpenCode", none)

/-- The inbound event as the handler reads it (plugin.ts lines 109-158):
`event.type`, `event.properties?.sessionID` and
`event.properties?.status?.type`, each optional access collapsing a missing
`properties` or `status` object to none. -/
structure RawEvent where
  type : String
  sessionID : Option String
  statusType : Option String
deriving Repr, DecidableEq

/-- What one run of the event handler produced: the final arbiter state, the
classifications passed to handleEvent in order, and whether the 150 ms grace
delay (plugin.ts line 195) was awaited. -/
structure HandlerResult where
  state : ArbiterState
  decisions : List EventType
  delayed : Bool
deriving Repr, DecidableEq

/-- The `event` closure returned by createNotifierPlugin (plugin.ts lines
109-252), sequenced from the segments above.  `now1` is the first clock read
of the matched branch (line 160 or 225), `now2` the post-delay read (line
204), `now3` the post-dispatch read (line 219).  `midUpdate` stands for
whatever interleaved handler invocations do to the shared state while this
invocation is suspended in the grace delay (section 5 of the spec: handler
invocations are not serialized).  The three type tests are written as a
chain: in the source they are three separate `if` statements over the same
string, at most one of which can match.  The result is Except so that a
thrown TypeScript exception would surface as Except.error; every exception
the body can raise is caught where the source catches it. -/
def eventHandler (hasPluginInput : Bool)
    (lookup : String → Except String (Option SessionData))
    (now1 now2 now3 : Int) (midUpdate : ArbiterState → ArbiterState)
    (s : ArbiterState) (ev : RawEvent) : Except String HandlerResult :=
  let resolved := resolveSessionInfo hasPluginInput lookup ev.sessionID
  if ev.type = "permission.updated" then
    Except.ok { state := s, decisions := [EventType.permission], delayed := false }
  else if ev.type = "session.status" then
    if ev.statusType = some "idle" then
      match idleStart s now1 resolved.2 with
      | (s1, IdleStart.suppressed) =>
        Except.ok { state := s1, decisions := [], delayed := false }
      | (s1, IdleStart.armed eventType) =>
        match idleResume (midUpdate s1) now2 eventType with
        | (s2, IdleResume.cancelled) =>
          Except.ok { state := s2, decisions := [], delayed := true }
        | (s2, IdleResume.suppressed) =>
          Except.ok { state := s2, decisions := [], delayed := true }
        | (s2, IdleResume.emit eventType2) =>
          Except.ok
            { state := idleDispatchSettled s2 now3
              decisions := [eventType2]
              delayed := true }
    else
      Except.ok { state := s, decisions := [], delayed := false }
  else if ev.type = "session.error" then
    match errorStep s now1 with
    | (s1, none) => Except.ok { state := s1, decisions := [], delayed := false }
    | (s1, some eventType) =>
      Except.ok { state := s1, decisions := [eventType], delayed := false }
  else
    Except.ok { state := s, decisions := [], delayed := false }

/-- One settled entry of Promise.allSettled: fulfilled, or rejected with a
reason. -/
inductive SettledResult
  | fulfilled
  | rejected (reason : String)
deriving Repr, DecidableEq

/-- How Promise.allSettled settles one promise. -/
def settleOf : Except String Unit → SettledResult
  | Except.ok _ => SettledResult.fulfilled
  | Except.error e => SettledResult.rejected e

/-- Promise.allSettled over an array of promises: waits for every entry and
never rejects — each entry settles to its own outcome, independent of its
siblings. -/
def allSettled (ps : List (Except String Unit)) : List SettledResult :=
  ps.map settleOf

/-- What one run of handleEvent did: which dispatchers it invoked and the
settled outcomes it awaited. -/
structure DispatchRun where
  notifyCalled : Bool
  soundCalled : Bool
  settled : List SettledResult
deriving Repr, DecidableEq

/-- plugin.ts lines 42-84 (handleEvent): pushes sendNotification when
notifications are enabled for the classification, pushes playSound when
sound is enabled, then `await Promise.allSettled(promises)`.
`notifyOutcome` and `soundOutcome` are the outcomes those dispatch promises
would settle with (Except.error = rejection). -/
def handleEvent (notificationEnabled soundEnabled : Bool)
    (notifyOutcome soundOutcome : Except String Unit) : DispatchRun :=
  let promises :=
    (if notificationEnabled then [notifyOutcome] else []) ++
    (if soundEnabled then [soundOutcome] else [])
  { notifyCalled := notificationEnabled
    soundCalled := soundEnabled
    settled := allSettled promises }

/-- session-cache.ts: `interface SessionInfo { title: string; parentID?: string }`. -/
structure SessionInfo where
  title : String
  parentID : Option String
deriving Repr, DecidableEq

/-- session-cache.ts: `class SessionCache { private cache = new Map<string, SessionInfo>() }`,
modelled as an association list with Map get/set/has/clear semantics. -/
structure SessionCache where
  entries : List (String × SessionInfo)
deriving Repr, DecidableEq

/-- session-cache.ts: `get(id) { return this.cache.get(id) }`. -/
def SessionCache.get (c : SessionCache) (id : String) : Option SessionInfo :=
  (c.entries.find? (fun p => p.1 = id)).map (fun p => p.2)

/-- session-cache.ts: `set(id, info) { this.cache.set(id, info) }` — replaces
any existing entry for the key. -/
def SessionCache.set (c : SessionCache) (id : String) (info : SessionInfo) :
    SessionCache :=
  ⟨(id, info) :: c.entries.filter (fun p => ¬ p.1 = id)⟩

/-- session-cache.ts: `has(id) { return this.cache.has(id) }`. -/
def SessionCache.has (c : SessionCache) (id : String) : Bool :=
  (c.get id).isSome

/-- session-cache.ts: `clear() { this.cache.clear() }`. -/
def SessionCache.clear (_c : SessionCache) : SessionCache := ⟨[]⟩

/-- The result of the external session lookup collaborator of spec section 6:
`sessionId -> {title?, parentId?}`, which may fail. -/
structure LookupResult where
  title : Option String
  parentID : Option String
deriving Repr, DecidableEq

/-- Modelled from the spec: the Session Title Resolver's `resolve(sessionId?)`
function (spec section 4.2) is not present under src/ — only its cache
(session-cache.ts, the SessionCache above) and a test exercising a
cache-consulting plugin build are.  Following the spec's words: no sessionId
gives the default title with no I/O; a cached id returns the cached record
verbatim with no I/O; a miss with a lookup collaborator performs one lookup,
storing {title: looked-up title or default, parentId} on success and caching
nothing on failure; no collaborator gives the default title.  The third
component counts external lookup calls performed. -/
def resolve (cache : SessionCache)
    (lookup : Option (String → Except Unit LookupResult))
    (sessionId : Option String) : SessionInfo × SessionCache × Nat :=
  match sessionId with
  | none => ({ title := "OpenCode", parentID := none }, cache, 0)
  | some id =>
    match cache.get id with
    | some record => (record, cache, 0)
    | none =>
      match lookup with
      | none => ({ title := "OpenCode", parentID := none }, cache, 0)
      | some f =>
        match f id with
        | Except.ok r =>
          let stored : SessionInfo :=
            { title := r.title.getD "OpenCode", parentID := r.parentID }
          (stored, cache.set id stored, 1)
        | Except.error _ => ({ title := "OpenCode", parentID := none }, cache, 1)

/-- Claim C1: for a sessionId whose record is already in the Session Title
Cache, resolution returns the cached record verbatim, leaves the cache
unchanged and performs zero external lookup calls; resolving the same id a
second time from the returned cache again performs zero calls, so two
consecutive resolutions of a cached id never trigger a second external
call. -/
theorem resolve_cached_no_lookup (cache : SessionCache)
    (lookup : Option (String → Except Unit LookupResult))
    (id : String) (record : SessionInfo)
    (h : cache.get id = some record) :
    resolve cache lookup (some id) = (record, cache, 0) ∧
    resolve (resolve cache lookup (some id)).2.1 lookup (some id) = (record, cache, 0) := by
  constructor <;> simp [resolve, h]

/-- Claim C1 witness: a cache holding an entry for "ses_1" resolves it with
no external call. -/
theorem resolve_cached_no_lookup_witness :
    resolve (SessionCache.set ⟨[]⟩ "ses_1" ⟨"My Tab", none⟩) none (some "ses_1") =
      (⟨"My Tab", none⟩, SessionCache.set ⟨[]⟩ "ses_1" ⟨"My Tab", none⟩, 0) :=
  (resolve_cached_no_lookup (SessionCache.set ⟨[]⟩ "ses_1" ⟨"My Tab", none⟩) none
    "ses_1" ⟨"My Tab", none⟩ (by decide)).1

/-- Claim C2: a session.error arriving while an idle notification is pending
invokes the cancellation handle (marking the in-flight idle cancelled),
clears the handle, and dispatches no error decision; the cancelled idle
then resumes into the cancelled branch and emits nothing either — neither
classification surfaces for the pair. -/
theorem error_cancels_pending_idle (s : ArbiterState) (now afterDelay : Int)
    (eventType : EventType) (h : s.pendingIdleNotification = true) :
    (errorStep s now).2 = none ∧
    (errorStep s now).1.pendingIdleNotification = false ∧
    (errorStep s now).1.idleCancelled = true ∧
    (idleResume (errorStep s now).1 afterDelay eventType).2 = IdleResume.cancelled := by
  simp [errorStep, idleResume, h]

/-- Claim C2 witness: the idle-then-error pairing at t=0 / t=20 emits
nothing. -/
theorem error_cancels_pending_idle_witness :
    (errorStep ⟨-1, 0, -1, true, false⟩ 20).2 = none ∧
    (errorStep ⟨-1, 0, -1, true, false⟩ 20).1.pendingIdleNotification = false ∧
    (errorStep ⟨-1, 0, -1, true, false⟩ 20).1.idleCancelled = true ∧
    (idleResume (errorStep ⟨-1, 0, -1, true, false⟩ 20).1 150 EventType.complete).2 =
      IdleResume.cancelled :=
  error_cancels_pending_idle ⟨-1, 0, -1, true, false⟩ 20 150 EventType.complete rfl

/-- Claim C3: an idle event arriving within W of a recorded error is
suppressed immediately — no decision, no grace delay armed, state left
untouched; an idle event outside the window (or with no error ever
recorded, lastErrorTime = -1) proceeds to classification and arms the grace
delay. -/
theorem idle_error_debounce (s : ArbiterState) (now : Int) (parentID : Option String) :
    (s.lastErrorTime ≥ 0 ∧ now - s.lastErrorTime < RACE_CONDITION_DEBOUNCE_MS →
      idleStart s now parentID = (s, IdleStart.suppressed)) ∧
    (¬(s.lastErrorTime ≥ 0 ∧ now - s.lastErrorTime < RACE_CONDITION_DEBOUNCE_MS) →
      idleStart s now parentID =
        ({ s with
            lastIdleTime := now
            pendingIdleNotification := true
            idleCancelled := false },
          IdleStart.armed
            (if truthyStr parentID then EventType.subagent else EventType.complete))) := by
  constructor <;> intro h <;> simp [idleStart, h]

/-- Claim C3 witness: error at t=0, idle at t=100 (inside W) is suppressed
with the state unchanged. -/
theorem idle_error_debounce_witness :
    idleStart ⟨0, -1, -1, false, false⟩ 100 none =
      (⟨0, -1, -1, false, false⟩, IdleStart.suppressed) :=
  (idle_error_debounce ⟨0, -1, -1, false, false⟩ 100 none).1 (by decide)

/-- Claim C4: a session.error with no pending idle cancellation is
suppressed (state untouched, nothing dispatched) when an idle notification
was already sent within W; otherwise lastErrorTime is set to now and an
error decision is dispatched. -/
theorem error_after_idle_notification (s : ArbiterState) (now : Int)
    (h : s.pendingIdleNotification = false) :
    (s.lastIdleNotificationTime ≥ 0 ∧
        now - s.lastIdleNotificationTime < RACE_CONDITION_DEBOUNCE_MS →
      errorStep s now = (s, none)) ∧
    (¬(s.lastIdleNotificationTime ≥ 0 ∧
        now - s.lastIdleNotificationTime < RACE_CONDITION_DEBOUNCE_MS) →
      errorStep s now = ({ s with lastErrorTime := now }, some EventType.error)) := by
  constructor <;> intro h2 <;> simp [errorStep, h, h2]

/-- Claim C4 witness: idle notification sent at t=150, error at t=200
(inside W) is suppressed. -/
theorem error_after_idle_notification_witness :
    errorStep ⟨-1, 0, 150, false, false⟩ 200 = (⟨-1, 0, 150, false, false⟩, none) :=
  (error_after_idle_notification ⟨-1, 0, 150, false, false⟩ 200 rfl).1 (by decide)

/-- Claim C5 (amended): an idle whose grace delay elapses uncancelled
re-checks the error debounce at resume time; if an error is within W it is
suppressed with the handle cleared and no emission, otherwise the handle is
cleared, the decision is emitted, and lastIdleNotificationTime is set to
the fresh clock reading taken after the dispatch settles (not to the
resume-time reading). -/
theorem idle_resume_recheck (s : ArbiterState) (afterDelay dispatchDone : Int)
    (eventType : EventType) (h : s.idleCancelled = false) :
    (s.lastErrorTime ≥ 0 ∧ afterDelay - s.lastErrorTime < RACE_CONDITION_DEBOUNCE_MS →
      idleResume s afterDelay eventType =
        ({ s with pendingIdleNotification := false }, IdleResume.suppressed)) ∧
    (¬(s.lastErrorTime ≥ 0 ∧ afterDelay - s.lastErrorTime < RACE_CONDITION_DEBOUNCE_MS) →
      idleResume s afterDelay eventType =
        ({ s with pendingIdleNotification := false }, IdleResume.emit eventType) ∧
      (idleDispatchSettled (idleResume s afterDelay eventType).1
          dispatchDone).lastIdleNotificationTime = dispatchDone) := by
  constructor <;> intro h2 <;> simp [idleResume, idleDispatchSettled, h, h2]

/-- Claim C5 witness: resume at t=150 with no error recorded clears the
handle and emits the completion decision. -/
theorem idle_resume_recheck_witness :
    idleResume ⟨-1, 0, -1, true, false⟩ 150 EventType.complete =
      (⟨-1, 0, -1, false, false⟩, IdleResume.emit EventType.complete) :=
  ((idle_resume_recheck ⟨-1, 0, -1, true, false⟩ 150 160 EventType.complete rfl).2
    (by decide)).1

/-- Claim C5 counterexample: in the run where the idle armed at t=0 resumes
at t=150 and its dispatch settles at t=160, the emitted decision stores
lastIdleNotificationTime = 160 — the post-dispatch clock reading — and not
the resume-time reading 150 the claim states. -/
theorem idle_resume_timestamp_counterexample :
    (idleStart initialState 0 none).2 = IdleStart.armed EventType.complete ∧
    (idleResume (idleStart initialState 0 none).1 150 EventType.complete).2 =
      IdleResume.emit EventType.complete ∧
    (idleDispatchSettled
        (idleResume (idleStart initialState 0 none).1 150 EventType.complete).1
        160).lastIdleNotificationTime = 160 ∧
    ((idleDispatchSettled
        (idleResume (idleStart initialState 0 none).1 150 EventType.complete).1
        160).lastIdleNotificationTime = 150 → False) := by
  decide

/-- Claim C6: a permission event always dispatches exactly the permission
classification, immediately (no grace delay awaited) and with the arbiter
state returned untouched, whatever the debounce timestamps and pending
cancellation are. -/
theorem permission_immediate (hasPluginInput : Bool)
    (lookup : String → Except String (Option SessionData))
    (now1 now2 now3 : Int) (midUpdate : ArbiterState → ArbiterState)
    (s : ArbiterState) (ev : RawEvent) (h : ev.type = "permission.updated") :
    eventHandler hasPluginInput lookup now1 now2 now3 midUpdate s ev =
      Except.ok { state := s, decisions := [EventType.permission], delayed := false } := by
  simp [eventHandler, h]

/-- Claim C6 witness: a permission event fires even with a fresh error, a
fresh idle notification and a pending idle cancellation all in the state. -/
theorem permission_immediate_witness :
    eventHandler false (fun _ => Except.ok none) 0 0 0 id
        ⟨100, -1, 120, true, false⟩ ⟨"permission.updated", none, none⟩ =
      Except.ok ⟨⟨100, -1, 120, true, false⟩, [EventType.permission], false⟩ :=
  permission_immediate false (fun _ => Except.ok none) 0 0 0 id
    ⟨100, -1, 120, true, false⟩ ⟨"permission.updated", none, none⟩ rfl

/-- Claim C7: handleEvent invokes the visual dispatch exactly when
notifications are enabled and the sound dispatch exactly when sound is
enabled — each regardless of the other call's outcome — and settles with
one Promise.allSettled entry per enabled call, each entry reflecting only
its own call's outcome; a rejection becomes a rejected entry instead of a
propagated exception, the sibling entry being unaffected. -/
theorem handle_event_settles_all (notificationEnabled soundEnabled : Bool)
    (notifyOutcome soundOutcome : Except String Unit) :
    handleEvent notificationEnabled soundEnabled notifyOutcome soundOutcome =
      { notifyCalled := notificationEnabled
        soundCalled := soundEnabled
        settled :=
          (if notificationEnabled then [settleOf notifyOutcome] else []) ++
          (if soundEnabled then [settleOf soundOutcome] else []) } := by
  cases notificationEnabled <;> cases soundEnabled <;>
    simp [handleEvent, allSettled]

/-- Claim C8: the event handler never lets an exception escape — for every
state, event (including missing sessionId, missing properties, unknown type
strings) and lookup collaborator it returns Except.ok — and a lookup that
always throws still resolves to the default title with no parent. -/
theorem event_handler_never_throws :
    (∀ (hasPluginInput : Bool) (lookup : String → Except String (Option SessionData))
        (now1 now2 now3 : Int) (midUpdate : ArbiterState → ArbiterState)
        (s : ArbiterState) (ev : RawEvent),
      ∃ r, eventHandler hasPluginInput lookup now1 now2 now3 midUpdate s ev =
        Except.ok r) ∧
    (∀ (hasPluginInput : Bool) (e : String) (sessionID : Option String),
      resolveSessionInfo hasPluginInput (fun _ => Except.error e) sessionID =
        ("OpenCode", none)) := by
  constructor
  · intro hasPluginInput lookup now1 now2 now3 midUpdate s ev
    unfold eventHandler
    dsimp only
    repeat' split
    all_goals exact ⟨_, rfl⟩
  · intro hasPluginInput e sessionID
    cases sessionID with
    | none => rfl
    | some sid =>
      by_cases hsid : sid = "" <;> cases hasPluginInput <;>
        simp [resolveSessionInfo, hsid]

/-- Claim C9: an error that is suppressed (either branch) leaves
lastErrorTime unchanged, so the idle-after-error debounce decision of any
later idle event is exactly what it would have been without the suppressed
error. -/
theorem suppressed_error_frame (s s2 : ArbiterState) (now : Int)
    (h : errorStep s now = (s2, none)) :
    s2.lastErrorTime = s.lastErrorTime ∧
    ∀ (t : Int) (parentID : Option String),
      (idleStart s2 t parentID).2 = (idleStart s t parentID).2 := by
  have hle : s2.lastErrorTime = s.lastErrorTime := by
    unfold errorStep at h
    split at h
    · injection h with h1 h2
      subst h1
      rfl
    · split at h
      · injection h with h1 h2
        subst h1
        rfl
      · injection h with h1 h2
        cases h2
  refine ⟨hle, ?_⟩
  intro t parentID
  by_cases hC : s.lastErrorTime ≥ 0 ∧ t - s.lastErrorTime < RACE_CONDITION_DEBOUNCE_MS
  · simp [idleStart, hle, hC]
  · simp [idleStart, hle, hC]

/-- Claim C9 witness: after the error at t=20 is suppressed by a pending
idle, a later idle at t=40 is arbitrated exactly as before the error. -/
theorem suppressed_error_frame_witness :
    (idleStart ⟨-1, 0, -1, false, true⟩ 40 none).2 =
      (idleStart ⟨-1, 0, -1, true, false⟩ 40 none).2 :=
  (suppressed_error_frame ⟨-1, 0, -1, true, false⟩ ⟨-1, 0, -1, false, true⟩ 20
    (by decide)).2 40 none

/-- Claim C10: an idle resume that emits clears the pending handle before
dispatch begins and leaves lastIdleNotificationTime untouched until the
dispatch settles; consequently, in the concrete run where the idle armed at
t=0 emits its completion at t=150 and an error arrives at t=160 while the
dispatch is still in flight, the error finds no pending handle and a stale
lastIdleNotificationTime and dispatches an error decision inside the same W
window. -/
theorem idle_emission_frame_and_error_race :
    (∀ (s : ArbiterState) (afterDelay : Int) (eventType : EventType),
      s.idleCancelled = false →
      ¬(s.lastErrorTime ≥ 0 ∧ afterDelay - s.lastErrorTime < RACE_CONDITION_DEBOUNCE_MS) →
      (idleResume s afterDelay eventType).1.pendingIdleNotification = false ∧
      (idleResume s afterDelay eventType).1.lastIdleNotificationTime =
        s.lastIdleNotificationTime ∧
      (idleResume s afterDelay eventType).2 = IdleResume.emit eventType) ∧
    ((idleStart initialState 0 none).2 = IdleStart.armed EventType.complete ∧
     (idleResume (idleStart initialState 0 none).1 150 EventType.complete).2 =
       IdleResume.emit EventType.complete ∧
     (errorStep
        (idleResume (idleStart initialState 0 none).1 150 EventType.complete).1
        160).2 = some EventType.error ∧
     (160 : Int) - 150 < RACE_CONDITION_DEBOUNCE_MS) := by
  constructor
  · intro s afterDelay eventType h1 h2
    simp [idleResume, h1, h2]
  · decide

/-- Claim C10 witness: an emitting resume clears the handle and preserves
the stored notification timestamp. -/
theorem idle_emission_frame_and_error_race_witness :
    (idleResume ⟨-1, 0, 7, true, false⟩ 150 EventType.subagent).2 =
      IdleResume.emit EventType.subagent :=
  (idle_emission_frame_and_error_race.1 ⟨-1, 0, 7, true, false⟩ 150 EventType.subagent
    rfl (by decide)).2.2

end OpencodeNotifier
